import Mathlib

/-!
Shallow embedding of the `mqtt-logger` recording/playback core
(`src/mqtt_logger/database.py` and `src/mqtt_logger/logger.py`).

Wall-clock reads (`time.time()`) are passed as explicit `now : ℚ` arguments;
message payloads are byte lists; the SQLite database holding the `RUN` and
`LOG` tables is modelled by the `DB` structure below (schema assumed present,
as after `create_tables`).  Python exceptions are modelled with `Except`.
-/

/-- One row of the `RUN` table: `(ID, START_UNIX_TIME, END_UNIX_TIME)`. -/
structure RunEntry where
  id : Int
  start_unix_time : ℚ
  end_unix_time : Option ℚ
deriving DecidableEq, Repr

/-- One row of the `LOG` table: `(RUN_ID, UNIX_TIME, TOPIC, MESSAGE)`.
`ID` is the implicit position in the insertion-ordered list. -/
structure LogEntry where
  run_id : Int
  unix_time : ℚ
  topic : String
  message : List Nat
deriving DecidableEq, Repr

/-- The SQLite database with both tables present (rows in insertion order). -/
structure DB where
  runs : List RunEntry
  logs : List LogEntry
deriving DecidableEq, Repr

/-- The dict `{"unix_time", "topic", "message"}` built by
`retrieve_log_entries` (the `RUN_ID` column is not selected). -/
structure LogRecord where
  unix_time : ℚ
  topic : String
  message : List Nat
deriving DecidableEq, Repr

/-- Python exceptions raised by the database layer (`sqlite3.ProgrammingError`
is what every cursor operation raises once the connection has been closed). -/
inductive DbError
  | valueError (msg : String)
  | operationalError (msg : String)
  | programmingError (msg : String)
deriving DecidableEq, Repr

/-- SQLite `LIKE` folds ASCII upper case to lower case. -/
def asciiLower (c : Char) : Char :=
  if 'A' ≤ c ∧ c ≤ 'Z' then Char.ofNat (c.toNat + 32) else c

/-- SQLite `LIKE` matching: `%` matches any sequence, `_` any single
character, other characters match ASCII-case-insensitively.  Structured with
fuel so that it computes by kernel reduction; each recursive call shrinks
`pattern.length + s.length`, so `likeMatch` below supplies enough fuel. -/
def likeMatchFuel : Nat → List Char → List Char → Bool
  | 0, _, _ => false
  | _ + 1, [], [] => true
  | _ + 1, [], _ :: _ => false
  | fuel + 1, '%' :: p, [] => likeMatchFuel fuel p []
  | fuel + 1, '%' :: p, d :: s => likeMatchFuel fuel p (d :: s) || likeMatchFuel fuel ('%' :: p) s
  | _ + 1, '_' :: _, [] => false
  | fuel + 1, '_' :: p, _ :: s => likeMatchFuel fuel p s
  | _ + 1, _ :: _, [] => false
  | fuel + 1, c :: p, d :: s => if asciiLower c = asciiLower d then likeMatchFuel fuel p s else false

/-- `TOPIC LIKE pattern` for one pattern. -/
def likeMatch (pattern s : String) : Bool :=
  likeMatchFuel (pattern.length + s.length + 1) pattern.data s.data

/-- The `WHERE TOPIC LIKE p1 OR TOPIC LIKE p2 OR ...` disjunction. -/
def likeAny (patterns : List String) (topic : String) : Bool :=
  patterns.any (fun p => likeMatch p topic)

/-- `run_ids(con)`: the `ID` column of the `RUN` table. -/
def run_ids (db : DB) : List Int :=
  db.runs.map (fun r => r.id)

/-- SQLite assigns a fresh `INTEGER PRIMARY KEY` as one more than the largest
rowid in use (1 for an empty table). -/
def next_run_id (db : DB) : Int :=
  db.runs.foldl (fun m r => max m r.id) 0 + 1

/-- `start_run_entry(con)`: inserts a run with `START_UNIX_TIME = now` and no
end time; returns the updated database and `cur.lastrowid`. -/
def start_run_entry (db : DB) (now : ℚ) : DB × Int :=
  let rid := next_run_id db
  ({ db with runs := db.runs ++ [{ id := rid, start_unix_time := now, end_unix_time := none }] }, rid)

/-- `stop_run_entry(con, run_id)`: raises `ValueError` when `run_id is None`,
otherwise `UPDATE RUN SET END_UNIX_TIME = now WHERE ROWID = run_id`. -/
def stop_run_entry (db : DB) (run_id : Option Int) (now : ℚ) : Except DbError DB :=
  match run_id with
  | none => .error (.valueError "run_id must be provided.")
  | some rid =>
      .ok { db with
              runs := db.runs.map (fun r =>
                if r.id = rid then { r with end_unix_time := some now } else r) }

/-- `insert_log_entry(con, topic, message, run_id)`: raises `ValueError` when
`run_id is None`; logs a warning (returned as the `Bool`) when `run_id` is not
among `run_ids(con)`; in either case the row is inserted and committed. -/
def insert_log_entry (db : DB) (topic : String) (message : List Nat)
    (run_id : Option Int) (now : ℚ) : Except DbError (DB × Bool) :=
  match run_id with
  | none => .error (.valueError "run_id must be provided.")
  | some rid =>
      let warned := decide (rid ∉ run_ids db)
      .ok ({ db with
               logs := db.logs ++ [{ run_id := rid, unix_time := now, topic := topic, message := message }] },
           warned)

/-- Projection of a `LOG` row to the selected columns
`UNIX_TIME, TOPIC, MESSAGE`. -/
def toRecord (l : LogEntry) : LogRecord :=
  { unix_time := l.unix_time, topic := l.topic, message := l.message }

/-- `retrieve_log_entries(con, patterns)`: all rows when `patterns is None`;
otherwise the rows whose topic `LIKE`-matches some pattern.  An empty pattern
list produces the malformed query `... WHERE ` (the `" OR ".join` of nothing),
an `sqlite3.OperationalError`. -/
def retrieve_log_entries (db : DB) (patterns : Option (List String)) :
    Except DbError (List LogRecord) :=
  match patterns with
  | none => .ok (db.logs.map toRecord)
  | some [] => .error (.operationalError "incomplete input")
  | some ps => .ok ((db.logs.filter (fun l => likeAny ps l.topic)).map toRecord)

/-- `start_time(con)`: `SELECT MIN(UNIX_TIME) FROM LOG` over the whole table
(`NULL`, i.e. `none`, when the table is empty). -/
def start_time (db : DB) : Option ℚ :=
  db.logs.foldl
    (fun acc l =>
      match acc with
      | none => some l.unix_time
      | some m => some (if m ≤ l.unix_time then m else l.unix_time))
    none

/-- `Playback._mqtt_pattern_to_sql_pattern`: one pass of Python's
`str.replace("%%", "%")` — leftmost non-overlapping occurrences. -/
def collapseOnce : List Char → List Char
  | [] => []
  | [c] => [c]
  | c :: d :: rest =>
      if c = '%' ∧ d = '%' then '%' :: collapseOnce rest
      else c :: collapseOnce (d :: rest)

/-- The `"%%" in sql_pattern` test: some adjacent pair of `%` characters. -/
def hasDoublePercent : List Char → Bool
  | [] => false
  | [_] => false
  | c :: d :: rest =>
      if c = '%' ∧ d = '%' then true else hasDoublePercent (d :: rest)

/-- The `while "%%" in sql_pattern:` loop, run with fuel.  Each iteration of
the source loop strictly shrinks the string, so `s.length` steps suffice
(proved in `hasDoublePercent_collapseLoopFuel`). -/
def collapseLoopFuel : Nat → List Char → List Char
  | 0, s => s
  | fuel + 1, s =>
      if hasDoublePercent s = true then collapseLoopFuel fuel (collapseOnce s) else s

/-- Python's single-character `str.replace(a, b)`. -/
def replaceChar (s : List Char) (a b : Char) : List Char :=
  s.map (fun c => if c = a then b else c)

/-- `Playback._mqtt_pattern_to_sql_pattern(mqtt_pattern)`: `#` and the empty
pattern map to `%`; otherwise `+` and `#` are replaced by `%` and consecutive
`%%` runs are collapsed until none remain. -/
def mqtt_pattern_to_sql_pattern (mqtt_pattern : String) : String :=
  if mqtt_pattern = "#" ∨ mqtt_pattern = "" then "%"
  else
    let substituted := replaceChar (replaceChar mqtt_pattern.data '+' '%') '#' '%'
    ⟨collapseLoopFuel substituted.length substituted⟩

/-- State of a `Recorder` object: the shared database connection (its table
contents `db` plus `con_open`, whether the sqlite connection handle is still
open — `stop` closes it with `self._con.close()`), the mutable `_run_id`
field and the mutable `_recording` flag.  (Construction ends with
`_run_id = None` and `_recording = False` on a freshly opened connection.) -/
structure RecorderState where
  db : DB
  run_id : Option Int
  recording : Bool
  con_open : Bool
deriving DecidableEq, Repr

/-- Exceptions propagating out of `Recorder.start` / `Recorder.stop`:
`RuntimeError("Already recording, please stop first")`,
`RuntimeError("Not recording, please start first")`, or an exception from the
database layer. -/
inductive RecorderError
  | alreadyRecordingError
  | notRecordingError
  | dbError (e : DbError)
deriving DecidableEq, Repr

/-- `Recorder.__init__` (after connecting and ensuring the schema): no run id,
not recording, connection open. -/
def recorder_init (db : DB) : RecorderState :=
  { db := db, run_id := none, recording := false, con_open := true }

/-- `Recorder.start`: raises when already recording; otherwise calls
`start_run_entry(self._con)`, whose `con.cursor()` raises
`sqlite3.ProgrammingError` when `stop` has already closed the connection
(before `_run_id` or `_recording` is assigned); otherwise begins a run and
sets the flag. -/
def Recorder.start (st : RecorderState) (now : ℚ) : Except RecorderError RecorderState :=
  if st.recording then .error .alreadyRecordingError
  else if st.con_open = false then
    .error (.dbError (.programmingError "Cannot operate on a closed database."))
  else
    let p := start_run_entry st.db now
    .ok { db := p.1, run_id := some p.2, recording := true, con_open := true }

/-- `Recorder.stop`: raises when not recording; otherwise
`stop_run_entry(self._con, ...)` raises `sqlite3.ProgrammingError` on a closed
connection (before any field is assigned); otherwise ends the current run,
clears `_run_id` and `_recording`, and finally closes the database connection
(`self._con.close()`). -/
def Recorder.stop (st : RecorderState) (now : ℚ) : Except RecorderError RecorderState :=
  if st.recording = false then .error .notRecordingError
  else if st.con_open = false then
    .error (.dbError (.programmingError "Cannot operate on a closed database."))
  else
    match stop_run_entry st.db st.run_id now with
    | .error e => .error (.dbError e)
    | .ok db => .ok { db := db, run_id := none, recording := false, con_open := false }

/-- `Recorder._on_message` while `_recording`: `insert_log_entry`, with any
exception caught and logged (`except Exception`, including the
`ProgrammingError` of a closed connection); state other than the database
never changes.  While not recording the message is discarded. -/
def Recorder.on_message (st : RecorderState) (topic : String) (payload : List Nat)
    (now : ℚ) : RecorderState :=
  if st.recording then
    if st.con_open = false then st
    else
      match insert_log_entry st.db topic payload st.run_id now with
      | .ok p => { st with db := p.1 }
      | .error _ => st
  else st

/-- A public `Recorder` call together with the wall-clock value read during
it.  A raised exception leaves the object's state unchanged. -/
inductive RecorderOp
  | start (now : ℚ)
  | stop (now : ℚ)
  | onMessage (topic : String) (payload : List Nat) (now : ℚ)

/-- Effect of one public call on the `Recorder` state (exceptions propagate to
the caller and leave the state as it was). -/
def applyRecorderOp (st : RecorderState) : RecorderOp → RecorderState
  | .start now =>
      match Recorder.start st now with
      | .ok st2 => st2
      | .error _ => st
  | .stop now =>
      match Recorder.stop st now with
      | .ok st2 => st2
      | .error _ => st
  | .onMessage topic payload now => Recorder.on_message st topic payload now

/-- A sequence of public `Recorder` calls applied in order. -/
def applyRecorderOps (st : RecorderState) (ops : List RecorderOp) : RecorderState :=
  ops.foldl applyRecorderOp st

/-- One database-layer call together with the wall-clock value read during it.
Exceptions leave the database unchanged. -/
inductive DbOp
  | startRun (now : ℚ)
  | stopRun (rid : Option Int) (now : ℚ)
  | insertLog (topic : String) (payload : List Nat) (rid : Option Int) (now : ℚ)

/-- Effect of one database-layer call on the stored tables. -/
def applyDbOp (db : DB) : DbOp → DB
  | .startRun now => (start_run_entry db now).1
  | .stopRun rid now =>
      match stop_run_entry db rid now with
      | .ok db2 => db2
      | .error _ => db
  | .insertLog topic payload rid now =>
      match insert_log_entry db topic payload rid now with
      | .ok p => p.1
      | .error _ => db

/-- A sequence of database-layer calls applied in order. -/
def applyDbOps (db : DB) (ops : List DbOp) : DB :=
  ops.foldl applyDbOp db

/-- The spec's error taxonomy for `Playback.play` (`EmptyReplaySetError`,
`InvalidSpeedError`).  The source defines and raises neither; the `Except`
codomain of `Playback.play` below makes the spec's claims about them
statable. -/
inductive PlayException
  | emptyReplaySetError
  | invalidSpeedError
deriving DecidableEq, Repr

/-- Outcome of one `_publish_aux(log)` coroutine as collected by
`asyncio.gather(..., return_exceptions=True)`: either the message is published
after sleeping `(log["unix_time"] - start_unix_time) / speed` seconds, or the
coroutine dies on `unix_time - None` (`TypeError`, empty `LOG` table) or on
division by a zero speed (`ZeroDivisionError`). -/
inductive EmissionResult
  | published (offset : ℚ) (topic : String) (message : List Nat)
  | typeError
  | zeroDivisionError
deriving DecidableEq, Repr

/-- State of a `Playback` object: the database connection, the `_log_data`
replay set loaded at construction, and the `_publish_task` handle (`None`
until `play` runs `_publish`). -/
structure PlaybackState where
  db : DB
  log_data : List LogRecord
  publish_task : Option (List EmissionResult)
deriving DecidableEq, Repr

/-- `Playback.__init__` (after connecting): translates each topic with
`_mqtt_pattern_to_sql_pattern`, loads `_log_data` via `retrieve_log_entries`,
and leaves `_publish_task = None`. -/
def playback_init (db : DB) (topics : List String) : Except DbError PlaybackState :=
  let sql_patterns := topics.map mqtt_pattern_to_sql_pattern
  match retrieve_log_entries db (some sql_patterns) with
  | .error e => .error e
  | .ok data => .ok { db := db, log_data := data, publish_task := none }

/-- Body of `_publish_aux(log)` for one log record. -/
def publish_aux (start_unix_time : Option ℚ) (speed : ℚ) (log : LogRecord) : EmissionResult :=
  match start_unix_time with
  | none => .typeError
  | some epoch =>
      if speed = 0 then .zeroDivisionError
      else .published ((log.unix_time - epoch) / speed) log.topic log.message

/-- `Playback.play(speed)` = `asyncio.run(self._publish(speed))`:
`_publish` reads `start_time(self._con)` (the minimum over the whole `LOG`
table), gathers one `_publish_aux` per `_log_data` entry with
`return_exceptions=True` (so per-entry exceptions are captured, not raised),
stores the gather handle in `_publish_task`, and awaits it.  No speed or
replay-set validation exists on this path, so no `PlayException` is ever
produced. -/
def Playback.play (st : PlaybackState) (speed : ℚ) :
    Except PlayException (PlaybackState × List EmissionResult) :=
  let start_unix_time := start_time st.db
  let results := st.log_data.map (publish_aux start_unix_time speed)
  .ok ({ st with publish_task := some results }, results)

/-- `AttributeError` raised by `None.cancel()`. -/
inductive PlaybackStopError
  | attributeError (msg : String)
deriving DecidableEq, Repr

/-- `Playback.stop` = `self._publish_task.cancel()`: an `AttributeError` when
`_publish_task` is still `None`, otherwise the pending task is cancelled. -/
def Playback.stop (st : PlaybackState) : Except PlaybackStopError PlaybackState :=
  match st.publish_task with
  | none => .error (.attributeError "NoneType object has no attribute cancel")
  | some _ => .ok st

/-- The sleep offset of an emission, when it published. -/
def emissionOffset : EmissionResult → Option ℚ
  | .published o _ _ => some o
  | _ => none

/-- The offsets at which `play` schedules actual publishes (the `published`
results of the gathered coroutines, in replay-set order). -/
def scheduledOffsets (st : PlaybackState) (speed : ℚ) : List ℚ :=
  match Playback.play st speed with
  | .ok (_, results) => results.filterMap emissionOffset
  | .error _ => []

/-- An empty database (fresh after `create_tables`). -/
def dbEmpty : DB := { runs := [], logs := [] }

/-- A database with one run and one logged message at time 3 on topic `a`. -/
def dbOne : DB :=
  { runs := [{ id := 1, start_unix_time := 0, end_unix_time := none }],
    logs := [{ run_id := 1, unix_time := 3, topic := "a", message := [7] }] }

/-- The `Playback` state loaded from `dbOne` with the default `#` filter. -/
def pbOne : PlaybackState :=
  { db := dbOne,
    log_data := [{ unix_time := 3, topic := "a", message := [7] }],
    publish_task := none }

/-- A database with two logged messages: time 0 on topic `a`, time 10 on
topic `b`. -/
def dbTwo : DB :=
  { runs := [],
    logs := [{ run_id := 1, unix_time := 0, topic := "a", message := [] },
             { run_id := 1, unix_time := 10, topic := "b", message := [] }] }

/-- The `Playback` state loaded from `dbTwo` filtered to topic `b` only. -/
def pbFiltered : PlaybackState :=
  { db := dbTwo,
    log_data := [{ unix_time := 10, topic := "b", message := [] }],
    publish_task := none }

/-- A database whose single run already has its end timestamp set to 5. -/
def dbRun : DB :=
  { runs := [{ id := 1, start_unix_time := 0, end_unix_time := some 5 }], logs := [] }

theorem collapseOnce_length_le (s : List Char) : (collapseOnce s).length ≤ s.length := by
  match s with
  | [] => simp [collapseOnce]
  | [c] => simp [collapseOnce]
  | c :: d :: rest =>
    have h1 := collapseOnce_length_le rest
    have h2 := collapseOnce_length_le (d :: rest)
    simp only [List.length_cons] at h2
    by_cases h : c = '%' ∧ d = '%' <;> simp [collapseOnce, h] <;> omega

theorem collapseOnce_length_lt (s : List Char) (h : hasDoublePercent s = true) :
    (collapseOnce s).length < s.length := by
  match s with
  | [] => simp [hasDoublePercent] at h
  | [c] => simp [hasDoublePercent] at h
  | c :: d :: rest =>
    by_cases hcd : c = '%' ∧ d = '%'
    · have h1 := collapseOnce_length_le rest
      simp [collapseOnce, hcd]
      omega
    · have hrest : hasDoublePercent (d :: rest) = true := by
        simpa [hasDoublePercent, hcd] using h
      have h2 := collapseOnce_length_lt (d :: rest) hrest
      simp only [List.length_cons] at h2
      simp [collapseOnce, hcd]
      omega

theorem hasDoublePercent_collapseLoopFuel (fuel : Nat) :
    ∀ s : List Char, s.length ≤ fuel → hasDoublePercent (collapseLoopFuel fuel s) = false := by
  induction fuel with
  | zero =>
    intro s hs
    have : s = [] := List.length_eq_zero.mp (Nat.le_zero.mp hs)
    subst this
    rfl
  | succ n ih =>
    intro s hs
    rw [collapseLoopFuel]
    by_cases h : hasDoublePercent s = true
    · rw [if_pos h]
      exact ih (collapseOnce s) (by have := collapseOnce_length_lt s h; omega)
    · rw [if_neg h]
      simpa using h

theorem hasDoublePercent_translate (p : String) :
    hasDoublePercent (mqtt_pattern_to_sql_pattern p).data = false := by
  rw [mqtt_pattern_to_sql_pattern]
  by_cases h : p = "#" ∨ p = ""
  · rw [if_pos h]
    rfl
  · rw [if_neg h]
    exact hasDoublePercent_collapseLoopFuel _ _ le_rfl

/-- C4: the translator maps the bare `#` wildcard and the empty pattern to
`%`, and substitutes `%` for wildcard segments elsewhere:
`translate("#") = "%"`, `translate("") = "%"`, `translate("a/+/c") = "a/%/c"`,
`translate("a/#") = "a/%"`. -/
theorem translate_basic_patterns :
    mqtt_pattern_to_sql_pattern "#" = "%" ∧
    mqtt_pattern_to_sql_pattern "" = "%" ∧
    mqtt_pattern_to_sql_pattern "a/+/c" = "a/%/c" ∧
    mqtt_pattern_to_sql_pattern "a/#" = "a/%" := by
  refine ⟨by decide, by decide, by decide, by decide⟩

/-- C3 counterexample: `translate("+/#")` is `"%/%"`, not `"%"` — the two
substituted wildcards are separated by `/`, so the `%%`-collapse never sees
them. -/
theorem translate_plus_slash_hash_not_collapsed :
    mqtt_pattern_to_sql_pattern "+/#" = "%/%" ∧ mqtt_pattern_to_sql_pattern "+/#" ≠ "%" := by
  refine ⟨by decide, by decide⟩

/-- C3 (amended): for every input pattern the translator's output contains no
two adjacent `%` wildcards (directly adjacent characters are collapsed, e.g.
`translate("+#") = "%"`); but wildcards separated by other characters are not
merged, so `translate("+/#") = "%/%"`. -/
theorem translate_no_adjacent_wildcards (p : String) :
    hasDoublePercent (mqtt_pattern_to_sql_pattern p).data = false ∧
    mqtt_pattern_to_sql_pattern "+#" = "%" ∧
    mqtt_pattern_to_sql_pattern "+/#" = "%/%" :=
  ⟨hasDoublePercent_translate p, by decide, by decide⟩

/-- C1 counterexample: a `Playback` constructed over an empty database loads
an empty replay set, and `play` then returns normally with no publishes — it
does not fail with `EmptyReplaySetError` (no such error exists on that code
path). -/
theorem play_empty_replay_set_returns_ok :
    playback_init dbEmpty ["#"] =
      .ok { db := dbEmpty, log_data := [], publish_task := none } ∧
    Playback.play { db := dbEmpty, log_data := [], publish_task := none } 1 =
      .ok ({ db := dbEmpty, log_data := [], publish_task := some [] }, []) ∧
    Playback.play { db := dbEmpty, log_data := [], publish_task := none } 1 ≠
      .error .emptyReplaySetError := by
  refine ⟨rfl, rfl, by simp [Playback.play]⟩

/-- C1 (amended): calling `play` on a `Playback` whose replay set is empty
performs no transport publish, but it returns normally (with an empty gather)
rather than failing with `EmptyReplaySetError`. -/
theorem play_empty_replay_set_amended (st : PlaybackState) (speed : ℚ)
    (h : st.log_data = []) :
    Playback.play st speed = .ok ({ st with publish_task := some [] }, []) := by
  simp [Playback.play, h]

/-- Witness for `play_empty_replay_set_amended` at an empty replay set. -/
theorem play_empty_replay_set_amended_witness :
    ({ db := dbEmpty, log_data := [], publish_task := none } : PlaybackState).log_data = [] ∧
    Playback.play { db := dbEmpty, log_data := [], publish_task := none } 2 =
      .ok ({ db := dbEmpty, log_data := [], publish_task := some [] }, []) :=
  ⟨rfl, play_empty_replay_set_amended { db := dbEmpty, log_data := [], publish_task := none } 2 rfl⟩

/-- C2 counterexample: `play` with speed 0 on a non-empty replay set returns
normally — the per-entry `ZeroDivisionError` is captured by
`asyncio.gather(..., return_exceptions=True)` — and `play` with speed −1 also
returns normally and actually publishes; neither call fails with
`InvalidSpeedError`. -/
theorem play_nonpositive_speed_no_error :
    Playback.play pbOne 0 =
      .ok ({ pbOne with publish_task := some [.zeroDivisionError] }, [.zeroDivisionError]) ∧
    Playback.play pbOne (-1) =
      .ok ({ pbOne with publish_task := some [.published 0 "a" [7]] }, [.published 0 "a" [7]]) ∧
    Playback.play pbOne 0 ≠ .error .invalidSpeedError ∧
    Playback.play pbOne (-1) ≠ .error .invalidSpeedError := by
  refine ⟨?_, ?_, by simp [Playback.play], by simp [Playback.play]⟩
  · simp [Playback.play, publish_aux, start_time, pbOne, dbOne]
  · simp [Playback.play, publish_aux, start_time, pbOne, dbOne]

/-- C2 (amended): `play` performs no speed validation at all: for every speed
(positive or not) it returns normally and never raises an exception — in
particular no `InvalidSpeedError` for non-positive speeds; with speed 0 every
entry of a gathered run ends in a captured `ZeroDivisionError` instead of a
publish. -/
theorem play_never_raises_invalid_speed (st : PlaybackState) (speed : ℚ) :
    (∀ e : PlayException, Playback.play st speed ≠ .error e) ∧
    (∀ out, Playback.play st speed = .ok out → speed = 0 →
      ∀ epoch, start_time st.db = some epoch →
        ∀ r ∈ out.2, r = .zeroDivisionError) := by
  constructor
  · intro e
    simp [Playback.play]
  · intro out hout hs epoch hepoch r hr
    rw [Playback.play] at hout
    cases hout
    simp only [List.mem_map] at hr
    obtain ⟨l, _, hl⟩ := hr
    subst hs
    rw [hepoch] at hl
    simp only [publish_aux, if_pos] at hl
    exact hl.symm

/-- Witness for `play_never_raises_invalid_speed` at speed 0 on `pbOne`. -/
theorem play_never_raises_invalid_speed_witness :
    Playback.play pbOne 0 ≠ .error .invalidSpeedError :=
  (play_never_raises_invalid_speed pbOne 0).1 .invalidSpeedError

theorem scheduledOffsets_eq (st : PlaybackState) (epoch : ℚ)
    (he : start_time st.db = some epoch) (speed : ℚ) (hs : speed ≠ 0) :
    scheduledOffsets st speed = st.log_data.map (fun l => (l.unix_time - epoch) / speed) := by
  rw [scheduledOffsets, Playback.play, he]
  show (st.log_data.map (publish_aux (some epoch) speed)).filterMap emissionOffset = _
  induction st.log_data with
  | nil => rfl
  | cons l L ih =>
      simp only [List.map_cons, List.filterMap_cons, publish_aux, if_neg hs, emissionOffset]
      rw [ih]

/-- C5 counterexample: with entries at times 0 (topic `a`) and 10 (topic `b`)
and the replay set filtered to topic `b`, the single entry's minimum replay-set
timestamp is 10, so the claim demands offset `(10 - 10) / 1 = 0`; the code
instead schedules it at offset 10, because `start_time` takes the minimum over
the whole `LOG` table, ignoring the filter. -/
theorem replay_epoch_uses_whole_table :
    playback_init dbTwo ["b"] = .ok pbFiltered ∧
    scheduledOffsets pbFiltered 1 = [10] ∧
    ((10 : ℚ) - 10) / 1 ≠ 10 := by
  refine ⟨rfl, ?_, by norm_num⟩
  simp [scheduledOffsets, Playback.play, publish_aux, emissionOffset, start_time, pbFiltered, dbTwo]

/-- C5 (amended): for every entry of the replay set and every positive speed,
`play` schedules the entry's emission at offset
`(entry.timestamp - epoch) / speed`, where `epoch` is the minimum timestamp
over the *entire* `LOG` table (`start_time`), not over the filtered replay
set (the two coincide only when the filter excludes nothing); consequently
every offset computed at speed 2 is exactly half the offset computed at
speed 1. -/
theorem play_offsets_scaled_by_table_min (st : PlaybackState) (epoch : ℚ)
    (he : start_time st.db = some epoch) (speed : ℚ) (hs : 0 < speed) :
    scheduledOffsets st speed = st.log_data.map (fun l => (l.unix_time - epoch) / speed) ∧
    scheduledOffsets st 2 = (scheduledOffsets st 1).map (fun o => o / 2) := by
  refine ⟨scheduledOffsets_eq st epoch he speed (ne_of_gt hs), ?_⟩
  rw [scheduledOffsets_eq st epoch he 2 two_ne_zero,
      scheduledOffsets_eq st epoch he 1 one_ne_zero, List.map_map]
  simp [Function.comp, div_one]

/-- C6 counterexample: a run whose end timestamp is already 5 has it
overwritten to 7 by a later `stop_run_entry` on the same identifier — the
`UPDATE` sets `END_UNIX_TIME` unconditionally. -/
theorem stop_run_entry_overwrites_end_time :
    stop_run_entry dbRun (some 1) 7 =
      .ok { runs := [{ id := 1, start_unix_time := 0, end_unix_time := some 7 }], logs := [] } ∧
    some (7 : ℚ) ≠ some (5 : ℚ) := by
  refine ⟨rfl, by norm_num⟩

theorem applyDbOp_preserves_run (db : DB) (op : DbOp) (i : Nat) (r : RunEntry)
    (hr : db.runs[i]? = some r) :
    ∃ r2, (applyDbOp db op).runs[i]? = some r2 ∧ r2.id = r.id ∧
      (r.end_unix_time.isSome = true → r2.end_unix_time.isSome = true) := by
  cases op with
  | startRun now =>
      refine ⟨r, ?_, rfl, fun h => h⟩
      have hi : i < db.runs.length := (List.getElem?_eq_some.mp hr).1
      show (db.runs ++ _)[i]? = some r
      rw [List.getElem?_append_left hi]
      exact hr
  | stopRun rid now =>
      cases rid with
      | none => exact ⟨r, hr, rfl, fun h => h⟩
      | some rid =>
          refine ⟨if r.id = rid then { r with end_unix_time := some now } else r, ?_, ?_, ?_⟩
          · show (db.runs.map _)[i]? = _
            rw [List.getElem?_map, hr]
            rfl
          · by_cases h : r.id = rid <;> simp [h]
          · by_cases h : r.id = rid <;> simp [h]
  | insertLog topic payload rid now =>
      cases rid with
      | none => exact ⟨r, hr, rfl, fun h => h⟩
      | some rid => exact ⟨r, hr, rfl, fun h => h⟩

/-- C6 (amended): once a run's end timestamp has been set it is never cleared
back to absent by any later database operation of this subsystem, and the
run's identifier is stable; however a later `stop_run_entry` on the same run
identifier *does* overwrite the stored end timestamp with the new current
time (see `stop_run_entry_overwrites_end_time`). -/
theorem run_end_never_cleared (db : DB) (ops : List DbOp) (i : Nat) (r : RunEntry)
    (hr : db.runs[i]? = some r) (hset : r.end_unix_time.isSome = true) :
    ∃ r2, (applyDbOps db ops).runs[i]? = some r2 ∧ r2.id = r.id ∧
      r2.end_unix_time.isSome = true := by
  induction ops generalizing db r with
  | nil => exact ⟨r, hr, rfl, hset⟩
  | cons op ops ih =>
      obtain ⟨r2, h1, h2, h3⟩ := applyDbOp_preserves_run db op i r hr
      obtain ⟨r3, g1, g2, g3⟩ := ih (applyDbOp db op) r2 h1 (h3 hset)
      exact ⟨r3, g1, g2.trans h2, g3⟩

/-- Witness for `run_end_never_cleared`: the already-ended run of `dbRun`
stays ended across a further `stop_run_entry` and an orphan insert. -/
theorem run_end_never_cleared_witness :
    dbRun.runs[0]? = some { id := 1, start_unix_time := 0, end_unix_time := some 5 } ∧
    (Option.some (5 : ℚ)).isSome = true ∧
    ∃ r2, (applyDbOps dbRun [.stopRun (some 1) 9, .insertLog "t" [] (some 3) 9]).runs[0]? = some r2 ∧
      r2.id = 1 ∧ r2.end_unix_time.isSome = true :=
  ⟨rfl, rfl,
    run_end_never_cleared dbRun [.stopRun (some 1) 9, .insertLog "t" [] (some 3) 9] 0
      { id := 1, start_unix_time := 0, end_unix_time := some 5 } rfl rfl⟩

/-- Witness for `play_offsets_scaled_by_table_min` on `pbOne` at speed 4. -/
theorem play_offsets_scaled_witness :
    start_time dbOne = some 3 ∧ (0 : ℚ) < 4 ∧
    (scheduledOffsets pbOne 4 =
        ([{ unix_time := (3 : ℚ), topic := "a", message := [7] }] : List LogRecord).map
          (fun l => (l.unix_time - 3) / 4) ∧
     scheduledOffsets pbOne 2 = (scheduledOffsets pbOne 1).map (fun o => o / 2)) :=
  ⟨rfl, by norm_num, play_offsets_scaled_by_table_min pbOne 3 rfl 4 (by norm_num)⟩

/-- C7: `insert_log_entry` with a present run identifier that is not among
the stored run identifiers raises no exception: it returns successfully with
the warning diagnostic flag set, the entry is appended, and it is
subsequently retrievable via `retrieve_log_entries`. -/
theorem insert_orphan_run_warns_and_inserts (db : DB) (topic : String) (msg : List Nat)
    (rid : Int) (now : ℚ) (h : rid ∉ run_ids db) :
    insert_log_entry db topic msg (some rid) now =
      .ok ({ db with
               logs := db.logs ++ [{ run_id := rid, unix_time := now, topic := topic, message := msg }] },
           true) ∧
    ∃ recs,
      retrieve_log_entries
          { db with
              logs := db.logs ++ [{ run_id := rid, unix_time := now, topic := topic, message := msg }] }
          none = .ok recs ∧
      ({ unix_time := now, topic := topic, message := msg } : LogRecord) ∈ recs := by
  constructor
  · simp [insert_log_entry, h]
  · refine ⟨_, rfl, ?_⟩
    simp [toRecord]

/-- Witness for `insert_orphan_run_warns_and_inserts`: inserting under
run id −1 into an empty database (the scenario of `test_insert_log_entry`). -/
theorem insert_orphan_run_witness :
    (-1 : Int) ∉ run_ids dbEmpty ∧
    (insert_log_entry dbEmpty "test_topic" [1, 2] (some (-1)) 0 =
        .ok ({ dbEmpty with
                 logs := dbEmpty.logs ++
                   [{ run_id := -1, unix_time := 0, topic := "test_topic", message := [1, 2] }] },
             true) ∧
     ∃ recs,
       retrieve_log_entries
           { dbEmpty with
               logs := dbEmpty.logs ++
                 [{ run_id := -1, unix_time := 0, topic := "test_topic", message := [1, 2] }] }
           none = .ok recs ∧
       ({ unix_time := 0, topic := "test_topic", message := [1, 2] } : LogRecord) ∈ recs) :=
  ⟨by simp [run_ids, dbEmpty],
   insert_orphan_run_warns_and_inserts dbEmpty "test_topic" [1, 2] (-1) 0
     (by simp [run_ids, dbEmpty])⟩

/-- C8 counterexample: `start` does not succeed from every non-recording
state.  Construct, `start` at time 0, `stop` at time 1 (which closes the
database connection); the resulting state is non-recording, yet `start` at
time 2 fails with `sqlite3.ProgrammingError` raised by `start_run_entry` on
the closed connection. -/
theorem start_after_stop_raises_programming_error :
    Recorder.start (recorder_init dbEmpty) 0 =
      .ok { db := { runs := [{ id := 1, start_unix_time := 0, end_unix_time := none }], logs := [] },
            run_id := some 1, recording := true, con_open := true } ∧
    Recorder.stop
        { db := { runs := [{ id := 1, start_unix_time := 0, end_unix_time := none }], logs := [] },
          run_id := some 1, recording := true, con_open := true } 1 =
      .ok { db := { runs := [{ id := 1, start_unix_time := 0, end_unix_time := some 1 }], logs := [] },
            run_id := none, recording := false, con_open := false } ∧
    ({ db := { runs := [{ id := 1, start_unix_time := 0, end_unix_time := some 1 }], logs := [] },
       run_id := none, recording := false, con_open := false } : RecorderState).recording = false ∧
    Recorder.start
        { db := { runs := [{ id := 1, start_unix_time := 0, end_unix_time := some 1 }], logs := [] },
          run_id := none, recording := false, con_open := false } 2 =
      .error (.dbError (.programmingError "Cannot operate on a closed database.")) :=
  ⟨rfl, rfl, rfl, rfl⟩

/-- C8 (amended): `start` while recording fails with `AlreadyRecordingError`
(`RuntimeError`) and mutates nothing; `stop` while not recording fails with
`NotRecordingError` (`RuntimeError`) and mutates nothing; `start` from a
non-recording state succeeds only while the database connection is still open
(the `Created` state) — after a successful `stop` the connection is closed and
`start` fails with `sqlite3.ProgrammingError`; `stop` from a recording state
(which holds a run id and an open connection) succeeds and closes the
connection. -/
theorem recorder_state_machine_amended (st : RecorderState) (now : ℚ) :
    (st.recording = true → Recorder.start st now = .error .alreadyRecordingError) ∧
    (st.recording = false → Recorder.stop st now = .error .notRecordingError) ∧
    (st.recording = false → st.con_open = true →
      Recorder.start st now =
        .ok { db := (start_run_entry st.db now).1,
              run_id := some (start_run_entry st.db now).2,
              recording := true, con_open := true }) ∧
    (st.recording = false → st.con_open = false →
      Recorder.start st now =
        .error (.dbError (.programmingError "Cannot operate on a closed database."))) ∧
    (∀ rid, st.recording = true → st.con_open = true → st.run_id = some rid →
      ∃ db2, stop_run_entry st.db (some rid) now = .ok db2 ∧
        Recorder.stop st now =
          .ok { db := db2, run_id := none, recording := false, con_open := false }) := by
  refine ⟨?_, ?_, ?_, ?_, ?_⟩
  · intro h
    simp [Recorder.start, h]
  · intro h
    simp [Recorder.stop, h]
  · intro h hc
    simp [Recorder.start, h, hc]
  · intro h hc
    simp [Recorder.start, h, hc]
  · intro rid h hc hrid
    refine ⟨_, rfl, ?_⟩
    simp [Recorder.stop, h, hc, hrid, stop_run_entry]

/-- Witness for `recorder_state_machine_amended`: `start` on an
already-recording state raises, and `start` on a stopped (closed-connection)
state raises the closed-database error. -/
theorem recorder_state_machine_amended_witness :
    Recorder.start { db := dbEmpty, run_id := some 1, recording := true, con_open := true } 0 =
      .error .alreadyRecordingError ∧
    Recorder.start { db := dbEmpty, run_id := none, recording := false, con_open := false } 0 =
      .error (.dbError (.programmingError "Cannot operate on a closed database.")) :=
  ⟨(recorder_state_machine_amended
      { db := dbEmpty, run_id := some 1, recording := true, con_open := true } 0).1 rfl,
   (recorder_state_machine_amended
      { db := dbEmpty, run_id := none, recording := false, con_open := false } 0).2.2.2.1 rfl rfl⟩

/-- C9: on a freshly constructed `Playback`, `_publish_task` is still `None`,
so `stop` before any `play` dies with an `AttributeError` from
`None.cancel()`; once `play` has run, `_publish_task` is set and `stop`
succeeds. -/
theorem playback_stop_before_play_raises (db : DB) (topics : List String)
    (st : PlaybackState) (h : playback_init db topics = .ok st) :
    st.publish_task = none ∧
    Playback.stop st = .error (.attributeError "NoneType object has no attribute cancel") ∧
    (∀ speed out, Playback.play st speed = .ok out →
      ∃ st3, Playback.stop out.1 = .ok st3) := by
  unfold playback_init at h
  cases hq : retrieve_log_entries db (some (topics.map mqtt_pattern_to_sql_pattern)) with
  | error e =>
      simp only [hq] at h
      exact (Except.noConfusion h)
  | ok data =>
      simp only [hq, Except.ok.injEq] at h
      subst h
      refine ⟨rfl, rfl, ?_⟩
      intro speed out hout
      rw [Playback.play] at hout
      cases hout
      exact ⟨_, rfl⟩

/-- Witness for `playback_stop_before_play_raises` on a `Playback` built over
the empty database. -/
theorem playback_stop_before_play_witness :
    playback_init dbEmpty ["#"] =
      .ok { db := dbEmpty, log_data := [], publish_task := none } ∧
    (({ db := dbEmpty, log_data := [], publish_task := none } : PlaybackState).publish_task = none ∧
     Playback.stop { db := dbEmpty, log_data := [], publish_task := none } =
       .error (.attributeError "NoneType object has no attribute cancel") ∧
     (∀ speed out,
        Playback.play { db := dbEmpty, log_data := [], publish_task := none } speed = .ok out →
        ∃ st3, Playback.stop out.1 = .ok st3)) :=
  ⟨rfl, playback_stop_before_play_raises dbEmpty ["#"] _ rfl⟩

theorem applyRecorderOp_consistent (st : RecorderState) (op : RecorderOp)
    (h : st.recording = true ↔ st.run_id.isSome = true) :
    (applyRecorderOp st op).recording = true ↔
      (applyRecorderOp st op).run_id.isSome = true := by
  cases hb : st.recording with
  | true =>
      obtain ⟨rid, hrid⟩ := Option.isSome_iff_exists.mp (h.mp hb)
      cases op with
      | start now =>
          simpa [applyRecorderOp, Recorder.start, hb] using h
      | stop now =>
          cases hc : st.con_open with
          | false =>
              simpa [applyRecorderOp, Recorder.stop, hb, hc] using h
          | true =>
              simp [applyRecorderOp, Recorder.stop, hb, hc, hrid, stop_run_entry]
      | onMessage topic payload now =>
          rw [applyRecorderOp, Recorder.on_message, if_pos hb]
          by_cases hc : st.con_open = false
          · rw [if_pos hc]
            exact h
          · rw [if_neg hc]
            cases hi : insert_log_entry st.db topic payload st.run_id now with
            | ok p => exact h
            | error e => exact h
  | false =>
      cases op with
      | start now =>
          cases hc : st.con_open with
          | false =>
              simpa [applyRecorderOp, Recorder.start, hb, hc] using h
          | true =>
              simp [applyRecorderOp, Recorder.start, hb, hc]
      | stop now =>
          simpa [applyRecorderOp, Recorder.stop, hb] using h
      | onMessage topic payload now =>
          rw [applyRecorderOp, Recorder.on_message, if_neg (by simp [hb])]
          exact h

/-- C10: at completion of construction and of every sequence of public
`Recorder` calls (`start`, `stop`, message delivery), the `_recording` flag is
true exactly when `_run_id` is present: construction yields
`(not recording, no run id)` and no call sequence can produce an inconsistent
combination. -/
theorem recorder_flag_matches_run_id (db : DB) (ops : List RecorderOp) :
    (recorder_init db).recording = false ∧ (recorder_init db).run_id = none ∧
    ((applyRecorderOps (recorder_init db) ops).recording = true ↔
      (applyRecorderOps (recorder_init db) ops).run_id.isSome = true) := by
  refine ⟨rfl, rfl, ?_⟩
  have key : ∀ (l : List RecorderOp) (st : RecorderState),
      (st.recording = true ↔ st.run_id.isSome = true) →
      ((applyRecorderOps st l).recording = true ↔
        (applyRecorderOps st l).run_id.isSome = true) := by
    intro l
    induction l with
    | nil => intro st h; exact h
    | cons op l ih => intro st h; exact ih _ (applyRecorderOp_consistent st op h)
  exact key ops (recorder_init db) (by simp [recorder_init])
